import Mathlib

/-!
# Verification of the go-cuserr error-value core

A shallow embedding of the `cuserr` Go package: the `CustomError` value,
its metadata store, the category → HTTP status table, client-safe
rendering, stack capture, error-chain matching and the lock discipline of
the mutating operations.  Go maps are embedded as association lists with
Go's assignment (replace-or-append) semantics; the process-wide
configuration record is passed explicitly; the host call stack consumed by
`runtime.Caller` is an explicit list parameter.
-/

namespace Cuserr

/-! ## Constants (cuserr.constants.errors.go) -/

def CATEGORY_VALIDATION : String := "validation"
def CATEGORY_NOT_FOUND : String := "not_found"
def CATEGORY_CONFLICT : String := "conflict"
def CATEGORY_UNAUTHORIZED : String := "unauthorized"
def CATEGORY_FORBIDDEN : String := "forbidden"
def CATEGORY_INTERNAL : String := "internal"
def CATEGORY_TIMEOUT : String := "timeout"
def CATEGORY_RATE_LIMIT : String := "rate_limit"
def CATEGORY_EXTERNAL : String := "external"

def HTTP_STATUS_BAD_REQUEST : Nat := 400
def HTTP_STATUS_UNAUTHORIZED : Nat := 401
def HTTP_STATUS_FORBIDDEN : Nat := 403
def HTTP_STATUS_NOT_FOUND : Nat := 404
def HTTP_STATUS_REQUEST_TIMEOUT : Nat := 408
def HTTP_STATUS_CONFLICT : Nat := 409
def HTTP_STATUS_TOO_MANY_REQUESTS : Nat := 429
def HTTP_STATUS_INTERNAL_SERVER_ERROR : Nat := 500
def HTTP_STATUS_BAD_GATEWAY : Nat := 502

def DEFAULT_STACK_DEPTH : Int := 10
def STACK_SKIP_FRAMES : Nat := 2

def MAIN_FUNCTION_NAME : String := "main.main"
def TESTING_FUNCTION_NAME : String := "testing."

/-! ## Go errors as values

Sentinel errors made by `errors.New` are distinct identities: we give each
a numeric id.  `wrapE` is an error produced by `fmt.Errorf("...: %w", e)`.
`customE` is a `*CustomError` viewed through the error interface: for
chain matching only its `Sentinel` and `Wrapped` fields are inspected
(`Is`, `Unwrap` in src/unnamed/part_003).  `nilE` is Go's nil error. -/

inductive Err where
  | nilE : Err
  | sentinelE (id : Nat) : Err
  | wrapE (msg : String) (inner : Err) : Err
  | customE (sent : Err) (wrap : Err) : Err
deriving DecidableEq, Repr

/-! ## Metadata: Go `map[string]string` as an association list -/

abbrev Metadata := List (String × String)

/-- Go map read `m[k]`. -/
def mdLookup : Metadata → String → Option String
  | [], _ => none
  | (k', v) :: rest, k => if k' = k then some v else mdLookup rest k

/-- Go map assignment `m[k] = v`: replace an existing binding or add one. -/
def mdInsert : Metadata → String → String → Metadata
  | [], k, v => [(k, v)]
  | (k', v') :: rest, k, v =>
      if k' = k then (k, v) :: rest else (k', v') :: mdInsert rest k v

/-! ## StackFrame and CustomError -/

structure StackFrame where
  Function : String
  File : String
  Line : Nat
deriving DecidableEq, Repr

/-- The `CustomError` entity.  `Wrapped`/`Sentinel` use `Err.nilE` for Go
nil; `Timestamp` is an abstract instant. -/
structure CustomError where
  Category : String
  Code : String
  Message : String
  Timestamp : Nat
  Wrapped : Err
  Sentinel : Err
  metadata : Metadata
  RequestID : String
  stackTrace : List StackFrame
  stackTraceCleared : Bool
deriving DecidableEq, Repr

/-- Process-wide configuration record read by construction and rendering. -/
structure Config where
  EnableStackTrace : Bool
  MaxStackDepth : Int
  ProductionMode : Bool
deriving DecidableEq, Repr

/-! ## Metadata operations (src/unnamed/part_003) -/

/-- `WithMetadata`: lazily allocates the backing map and assigns. -/
def WithMetadata (e : CustomError) (key value : String) : CustomError :=
  { e with metadata := mdInsert e.metadata key value }

/-- `GetMetadata`: value plus presence flag; `("", false)` when absent. -/
def GetMetadata (e : CustomError) (key : String) : String × Bool :=
  match mdLookup e.metadata key with
  | some v => (v, true)
  | none => ("", false)

/-- `GetAllMetadata`: a copy of all metadata (value semantics here; the
aliasing content of the copy is modelled separately on a heap). -/
def GetAllMetadata (e : CustomError) : Metadata :=
  e.metadata

/-- `WithRequestID` (no locking in the source). -/
def WithRequestID (e : CustomError) (requestID : String) : CustomError :=
  { e with RequestID := requestID }

/-! ## Category → HTTP status (cuserr.utils.http.go) -/

/-- `CategoryToHTTPStatus`: the switch over the nine category strings;
`internal` falls through to the default 500 branch. -/
def CategoryToHTTPStatus (category : String) : Nat :=
  if category = CATEGORY_VALIDATION then HTTP_STATUS_BAD_REQUEST
  else if category = CATEGORY_UNAUTHORIZED then HTTP_STATUS_UNAUTHORIZED
  else if category = CATEGORY_FORBIDDEN then HTTP_STATUS_FORBIDDEN
  else if category = CATEGORY_NOT_FOUND then HTTP_STATUS_NOT_FOUND
  else if category = CATEGORY_TIMEOUT then HTTP_STATUS_REQUEST_TIMEOUT
  else if category = CATEGORY_CONFLICT then HTTP_STATUS_CONFLICT
  else if category = CATEGORY_RATE_LIMIT then HTTP_STATUS_TOO_MANY_REQUESTS
  else if category = CATEGORY_EXTERNAL then HTTP_STATUS_BAD_GATEWAY
  else HTTP_STATUS_INTERNAL_SERVER_ERROR

def ToHTTPStatus (e : CustomError) : Nat :=
  CategoryToHTTPStatus e.Category

/-! ## Client-safe rendering (cuserr.utils.http.go) -/

/-- `ClientSafeMessage`: generic strings for internal/external categories
in production mode, the original message otherwise. -/
def ClientSafeMessage (cfg : Config) (e : CustomError) : String :=
  if cfg.ProductionMode then
    if e.Category = CATEGORY_INTERNAL then "An internal error occurred"
    else if e.Category = CATEGORY_EXTERNAL then "A service is temporarily unavailable"
    else e.Message
  else e.Message

/-- The four-key allow-list switch inside `ToClientJSON`. -/
def isClientSafeKey (k : String) : Bool :=
  k = "user_id" || k = "request_id" || k = "trace_id" || k = "correlation_id"

/-- The client-facing payload assembled by `ToClientJSON` (the `error`
object; empty metadata / empty request id stand for omitted fields). -/
structure ClientPayload where
  code : String
  message : String
  category : String
  timestamp : Nat
  metadata : Metadata
  requestID : String
deriving DecidableEq, Repr

/-- `ToClientJSON`: reads a copy of the metadata, filters it through the
allow-list in production mode, and assembles the payload; the receiver is
returned unchanged (the method performs no write to it). -/
def ToClientJSON (cfg : Config) (e : CustomError) : CustomError × ClientPayload :=
  let metadata := GetAllMetadata e
  let metadata :=
    if cfg.ProductionMode then metadata.filter (fun kv => isClientSafeKey kv.1)
    else metadata
  (e, { code := e.Code
        message := ClientSafeMessage cfg e
        category := e.Category
        timestamp := e.Timestamp
        metadata := metadata
        requestID := e.RequestID })

/-! ## Substring test (Go `strings.Contains`) -/

/-- Does the second list start with the first? -/
def startsWith : List Char → List Char → Bool
  | [], _ => true
  | _ :: _, [] => false
  | a :: as, b :: bs => a = b && startsWith as bs

def hasSubAux (pat : List Char) : List Char → Bool
  | [] => startsWith pat []
  | c :: rest => startsWith pat (c :: rest) || hasSubAux pat rest

/-- `strings.Contains s pat`. -/
def strContainsSub (s pat : String) : Bool :=
  hasSubAux pat.toList s.toList

/-! ## Stack capture (cuserr.utils.stack.go)

`runtime.Caller(i)` / `runtime.FuncForPC` are modelled by an explicit host
call stack: entry `i` is `none` when frame `i` resolves to no function
(`fn == nil`), and the list ends where `runtime.Caller` reports not-ok. -/

abbrev HostStack := List (Option StackFrame)

/-- The capture loop of `captureStackTrace`: at most `fuel` iterations
starting at index `i`; an unresolvable or missing frame stops the walk; a
frame whose function name contains the entry-point or test-harness pattern
is kept and then stops the walk. -/
def captureLoop : Nat → Nat → HostStack → List StackFrame
  | 0, _, _ => []
  | fuel + 1, i, host =>
    match host.get? i with
    | none => []
    | some none => []
    | some (some frame) =>
        frame ::
          (if strContainsSub frame.Function MAIN_FUNCTION_NAME
              || strContainsSub frame.Function TESTING_FUNCTION_NAME
           then []
           else captureLoop fuel (i + 1) host)

/-- `captureStackTrace`: short-circuit when capture is disabled; otherwise
walk up to `MaxStackDepth` frames, substituting `DEFAULT_STACK_DEPTH` when
the configured depth is ≤ 0. -/
def captureStackTrace (cfg : Config) (skip : Nat) (host : HostStack) : List StackFrame :=
  if !cfg.EnableStackTrace then []
  else
    let maxDepth : Int := if cfg.MaxStackDepth ≤ 0 then DEFAULT_STACK_DEPTH else cfg.MaxStackDepth
    captureLoop maxDepth.toNat skip host

/-- `GetStackTrace`: a copy of the stored trace. -/
def GetStackTrace (e : CustomError) : List StackFrame :=
  e.stackTrace

/-! ## Constructors (src/unnamed/part_003) -/

/-- `NewCustomErrorWithCategory`: explicit category/code/message, fresh
timestamp, nil wrapped/sentinel, nil metadata; stack captured now iff the
current configuration enables it. -/
def NewCustomErrorWithCategory (cfg : Config) (now : Nat) (host : HostStack)
    (category code message : String) : CustomError :=
  { Category := category
    Code := code
    Message := message
    Timestamp := now
    Wrapped := Err.nilE
    Sentinel := Err.nilE
    metadata := []
    RequestID := ""
    stackTrace :=
      if cfg.EnableStackTrace then captureStackTrace cfg STACK_SKIP_FRAMES host else []
    stackTraceCleared := false }

/-- `WrapWithCustomError`: nil in, nil out; otherwise a fresh categorized
error whose `Wrapped` is the given error. -/
def WrapWithCustomError (cfg : Config) (now : Nat) (host : HostStack)
    (err : Err) (category code message : String) : Option CustomError :=
  if err = Err.nilE then none
  else
    let customErr := NewCustomErrorWithCategory cfg now host category code message
    some { customErr with Wrapped := err }

/-! ## Error-chain matching (`errors.Is` with the `Is`/`Unwrap` methods)

One iteration of Go's `errors.Is` loop at error `e`: (1) `e == target`
(identity; structural equality of our values), (2) `e`'s own `Is` method —
only `*CustomError` has one: `errors.Is(e.Sentinel, target) ||
errors.Is(e.Wrapped, target)` — (3) unwrap (`wrapE` → inner, `customE` →
its `Wrapped`) and continue, stopping with false on nil. -/

def errsIs : Err → Err → Bool
  | Err.nilE, t => Err.nilE = t
  | Err.sentinelE i, t => Err.sentinelE i = t
  | Err.wrapE m inner, t =>
      (Err.wrapE m inner = t) ||
        (if inner = Err.nilE then false else errsIs inner t)
  | Err.customE s w, t =>
      (Err.customE s w = t) || errsIs s t || errsIs w t ||
        (if w = Err.nilE then false else errsIs w t)

/-! ## ShortError (cuserr.utils.stack.go) -/

/-- `ShortError`: `"[{rid}] {cat} ({code}): {msg}"` when a request id is
set, else `"{cat} ({code}): {msg}"`. -/
def ShortError (e : CustomError) : String :=
  if e.RequestID ≠ "" then
    "[" ++ e.RequestID ++ "] " ++ e.Category ++ " (" ++ e.Code ++ "): " ++ e.Message
  else
    e.Category ++ " (" ++ e.Code ++ "): " ++ e.Message

/-! ## Heap-level model of `GetAllMetadata`'s defensive copy

Go maps are references into a heap.  `GetAllMetadata` runs
`copy := make(map[string]string); for k, v := range e.metadata
{ copy[k] = v }; return copy`: it allocates a fresh map, fills it with the
entries of the internal one and returns the fresh reference.  We model map
references as addresses into a heap of `Metadata` values. -/

abbrev Addr := Nat

structure Heap where
  mem : Addr → Metadata
  next : Addr

/-- The error's internal metadata map reference. -/
structure ErrRef where
  mdRef : Addr

/-- Heap-level `GetAllMetadata`: allocate a fresh map, copy every entry of
the internal map into it, return the heap and the fresh reference. -/
def getAllMetadataH (h : Heap) (e : ErrRef) : Heap × Addr :=
  (⟨fun a => if a = h.next then h.mem e.mdRef else h.mem a, h.next + 1⟩, h.next)

/-- Heap-level `GetMetadata`: read through the internal reference. -/
def getMetadataH (h : Heap) (e : ErrRef) (key : String) : Option String :=
  mdLookup (h.mem e.mdRef) key

/-- A caller mutating a map it holds by reference: `m[k] = v` at `a`. -/
def heapMapAssign (h : Heap) (a : Addr) (key value : String) : Heap :=
  ⟨fun a' => if a' = a then mdInsert (h.mem a') key value else h.mem a', h.next⟩

/-! ## Lock discipline of the per-instance operations

Each operation of the source is abstracted to its sequence of lock events
and field accesses, in source order (`defer`red unlocks run last).  A
trace is lock-correct when every read happens under the shared or the
exclusive lock and every write under the exclusive lock. -/

inductive MuField where
  | metadataF
  | stackTraceF
  | requestIDF
deriving DecidableEq, Repr

inductive MuAction where
  | lockA
  | unlockA
  | rlockA
  | runlockA
  | readA (f : MuField)
  | writeA (f : MuField)
deriving DecidableEq, Repr

inductive MuHold where
  | held_none
  | held_shared
  | held_excl
deriving DecidableEq, Repr

/-- Every access in the trace holds the right lock mode. -/
def traceLocked : MuHold → List MuAction → Bool
  | _, [] => true
  | h, a :: rest =>
    match a, h with
    | MuAction.lockA, MuHold.held_none => traceLocked MuHold.held_excl rest
    | MuAction.rlockA, MuHold.held_none => traceLocked MuHold.held_shared rest
    | MuAction.unlockA, MuHold.held_excl => traceLocked MuHold.held_none rest
    | MuAction.runlockA, MuHold.held_shared => traceLocked MuHold.held_none rest
    | MuAction.readA _, MuHold.held_shared => traceLocked MuHold.held_shared rest
    | MuAction.readA _, MuHold.held_excl => traceLocked MuHold.held_excl rest
    | MuAction.writeA _, MuHold.held_excl => traceLocked MuHold.held_excl rest
    | _, _ => false

def lockProtected (tr : List MuAction) : Bool :=
  traceLocked MuHold.held_none tr

/-- `WithMetadata`: `mu.Lock(); (nil-check and) write metadata; Unlock`. -/
def withMetadataTrace : List MuAction :=
  [MuAction.lockA, MuAction.readA MuField.metadataF,
   MuAction.writeA MuField.metadataF, MuAction.unlockA]

/-- `GetMetadata`: `mu.RLock(); read metadata; RUnlock`. -/
def getMetadataTrace : List MuAction :=
  [MuAction.rlockA, MuAction.readA MuField.metadataF, MuAction.runlockA]

/-- `GetAllMetadata`: `mu.RLock(); read metadata (copy loop); RUnlock`. -/
def getAllMetadataTrace : List MuAction :=
  [MuAction.rlockA, MuAction.readA MuField.metadataF, MuAction.runlockA]

/-- `GetStackTrace`: `mu.RLock(); read stackTrace (copy); RUnlock`. -/
def getStackTraceTrace : List MuAction :=
  [MuAction.rlockA, MuAction.readA MuField.stackTraceF, MuAction.runlockA]

/-- `WithStackTrace`: `mu.Lock(); write stackTrace (and cleared flag); Unlock`. -/
def withStackTraceTrace : List MuAction :=
  [MuAction.lockA, MuAction.writeA MuField.stackTraceF, MuAction.unlockA]

/-- `ClearStackTrace`: `mu.Lock(); write stackTrace; Unlock`. -/
def clearStackTraceTrace : List MuAction :=
  [MuAction.lockA, MuAction.writeA MuField.stackTraceF, MuAction.unlockA]

/-- `FilterStackTrace`: `mu.Lock(); read and write stackTrace; Unlock`. -/
def filterStackTraceTrace : List MuAction :=
  [MuAction.lockA, MuAction.readA MuField.stackTraceF,
   MuAction.writeA MuField.stackTraceF, MuAction.unlockA]

/-- `WithRequestID`: `e.RequestID = requestID` — no lock is taken. -/
def withRequestIDTrace : List MuAction :=
  [MuAction.writeA MuField.requestIDF]

/-! ## Helper lemmas on the map embedding -/

theorem mdLookup_mdInsert_self (m : Metadata) (k v : String) :
    mdLookup (mdInsert m k v) k = some v := by
  induction m with
  | nil => simp [mdInsert, mdLookup]
  | cons kv rest ih =>
    obtain ⟨k', v'⟩ := kv
    by_cases h : k' = k
    · simp [mdInsert, h, mdLookup]
    · simp [mdInsert, h, mdLookup, ih]

theorem mdLookup_mdInsert_ne (m : Metadata) (k v k' : String) (h : k' ≠ k) :
    mdLookup (mdInsert m k v) k' = mdLookup m k' := by
  induction m with
  | nil => simp [mdInsert, mdLookup, Ne.symm h]
  | cons kv rest ih =>
    obtain ⟨k'', v''⟩ := kv
    by_cases hk : k'' = k
    · subst hk
      simp [mdInsert, mdLookup, Ne.symm h]
    · simp [mdInsert, hk, mdLookup, ih]

theorem mem_keys_mdInsert (m : Metadata) (k v x : String)
    (hx : x ∈ (mdInsert m k v).map Prod.fst) :
    x = k ∨ x ∈ m.map Prod.fst := by
  induction m with
  | nil => simpa [mdInsert] using hx
  | cons kv rest ih =>
    obtain ⟨k', v'⟩ := kv
    by_cases h : k' = k
    · subst h
      simpa [mdInsert] using hx
    · simp only [mdInsert, if_neg h, List.map_cons, List.mem_cons] at hx
      rcases hx with hx | hx
      · exact Or.inr (by simp [hx])
      · rcases ih hx with hx | hx
        · exact Or.inl hx
        · exact Or.inr (by simp [hx])

theorem keys_nodup_mdInsert (m : Metadata) (k v : String)
    (h : (m.map Prod.fst).Nodup) :
    ((mdInsert m k v).map Prod.fst).Nodup := by
  induction m with
  | nil => simp [mdInsert]
  | cons kv rest ih =>
    obtain ⟨k', v'⟩ := kv
    simp only [List.map_cons, List.nodup_cons] at h
    by_cases hk : k' = k
    · subst hk
      simpa [mdInsert] using h
    · simp only [mdInsert, if_neg hk, List.map_cons, List.nodup_cons]
      refine ⟨fun hmem => ?_, ih h.2⟩
      rcases mem_keys_mdInsert rest k v k' hmem with h1 | h1
      · exact hk h1
      · exact h.1 h1

theorem mdLookup_filter_clientSafe (m : Metadata) (k : String) :
    mdLookup (m.filter fun kv => isClientSafeKey kv.1) k =
      if isClientSafeKey k then mdLookup m k else none := by
  induction m with
  | nil => cases h : isClientSafeKey k <;> simp [mdLookup, h]
  | cons kv rest ih =>
    obtain ⟨k', v'⟩ := kv
    by_cases hk : k' = k
    · subst hk
      by_cases hs : isClientSafeKey k' <;>
        simp [List.filter_cons, hs, mdLookup, ih]
    · by_cases hs : isClientSafeKey k' <;>
        simp [List.filter_cons, hs, mdLookup, hk, ih]

/-! ## Claim theorems -/

/-- C1: `ToHTTPStatus` returns exactly the fixed table value of the
error's category — validation→400, unauthorized→401, forbidden→403,
not_found→404, timeout→408, conflict→409, rate_limit→429, external→502,
internal→500 — and returns 500, the internal-category status, for any
category value outside the closed 9-element set. -/
theorem toHTTPStatus_category_table (e : CustomError) :
    (e.Category = CATEGORY_VALIDATION → ToHTTPStatus e = 400)
    ∧ (e.Category = CATEGORY_UNAUTHORIZED → ToHTTPStatus e = 401)
    ∧ (e.Category = CATEGORY_FORBIDDEN → ToHTTPStatus e = 403)
    ∧ (e.Category = CATEGORY_NOT_FOUND → ToHTTPStatus e = 404)
    ∧ (e.Category = CATEGORY_TIMEOUT → ToHTTPStatus e = 408)
    ∧ (e.Category = CATEGORY_CONFLICT → ToHTTPStatus e = 409)
    ∧ (e.Category = CATEGORY_RATE_LIMIT → ToHTTPStatus e = 429)
    ∧ (e.Category = CATEGORY_EXTERNAL → ToHTTPStatus e = 502)
    ∧ (e.Category = CATEGORY_INTERNAL → ToHTTPStatus e = 500)
    ∧ (e.Category ∉ [CATEGORY_VALIDATION, CATEGORY_NOT_FOUND, CATEGORY_CONFLICT,
          CATEGORY_UNAUTHORIZED, CATEGORY_FORBIDDEN, CATEGORY_INTERNAL,
          CATEGORY_TIMEOUT, CATEGORY_RATE_LIMIT, CATEGORY_EXTERNAL] →
        ToHTTPStatus e = 500) := by
  refine ⟨?_, ?_, ?_, ?_, ?_, ?_, ?_, ?_, ?_, ?_⟩ <;>
    intro h <;>
    (try simp only [List.mem_cons, List.not_mem_nil, or_false, not_or] at h) <;>
    simp_all [ToHTTPStatus, CategoryToHTTPStatus, CATEGORY_VALIDATION,
      CATEGORY_NOT_FOUND, CATEGORY_CONFLICT, CATEGORY_UNAUTHORIZED,
      CATEGORY_FORBIDDEN, CATEGORY_INTERNAL, CATEGORY_TIMEOUT,
      CATEGORY_RATE_LIMIT, CATEGORY_EXTERNAL, HTTP_STATUS_BAD_REQUEST,
      HTTP_STATUS_UNAUTHORIZED, HTTP_STATUS_FORBIDDEN, HTTP_STATUS_NOT_FOUND,
      HTTP_STATUS_REQUEST_TIMEOUT, HTTP_STATUS_CONFLICT,
      HTTP_STATUS_TOO_MANY_REQUESTS, HTTP_STATUS_INTERNAL_SERVER_ERROR,
      HTTP_STATUS_BAD_GATEWAY]

/-- Witness for C1 at concrete inputs: a validation-category error maps to
400 and a category outside the closed set maps to 500. -/
theorem toHTTPStatus_category_table_witness :
    ToHTTPStatus ⟨"validation", "INVALID_INPUT", "m", 0, Err.nilE, Err.nilE,
        [], "", [], false⟩ = 400
    ∧ ToHTTPStatus ⟨"bogus_category", "X", "m", 0, Err.nilE, Err.nilE,
        [], "", [], false⟩ = 500 :=
  ⟨(toHTTPStatus_category_table _).1 rfl,
   (toHTTPStatus_category_table
      ⟨"bogus_category", "X", "m", 0, Err.nilE, Err.nilE, [], "", [], false⟩
    ).2.2.2.2.2.2.2.2.2 (by decide)⟩

/-- C3: in production mode `ClientSafeMessage` of an internal-category
error is exactly "An internal error occurred" and of an external-category
error exactly "A service is temporarily unavailable", regardless of the
original message; for every other category, and for every category when
production mode is off, it equals the original message. -/
theorem clientSafeMessage_production (cfg : Config) (e : CustomError) :
    (cfg.ProductionMode = true → e.Category = CATEGORY_INTERNAL →
        ClientSafeMessage cfg e = "An internal error occurred")
    ∧ (cfg.ProductionMode = true → e.Category = CATEGORY_EXTERNAL →
        ClientSafeMessage cfg e = "A service is temporarily unavailable")
    ∧ (cfg.ProductionMode = true → e.Category ≠ CATEGORY_INTERNAL →
        e.Category ≠ CATEGORY_EXTERNAL → ClientSafeMessage cfg e = e.Message)
    ∧ (cfg.ProductionMode = false → ClientSafeMessage cfg e = e.Message) := by
  refine ⟨fun hp hc => ?_, fun hp hc => ?_, fun hp h1 h2 => ?_, fun hp => ?_⟩ <;>
    simp_all [ClientSafeMessage, CATEGORY_INTERNAL, CATEGORY_EXTERNAL]

/-- Witness for C3: concrete production-mode internal and validation
errors, and a non-production internal error. -/
theorem clientSafeMessage_production_witness :
    ClientSafeMessage ⟨true, 10, true⟩
        ⟨"internal", "INTERNAL_ERROR", "db password is X", 0, Err.nilE,
          Err.nilE, [], "", [], false⟩ = "An internal error occurred"
    ∧ ClientSafeMessage ⟨true, 10, true⟩
        ⟨"validation", "INVALID_INPUT", "bad field", 0, Err.nilE, Err.nilE,
          [], "", [], false⟩ = "bad field"
    ∧ ClientSafeMessage ⟨true, 10, false⟩
        ⟨"internal", "INTERNAL_ERROR", "db password is X", 0, Err.nilE,
          Err.nilE, [], "", [], false⟩ = "db password is X" :=
  ⟨(clientSafeMessage_production ⟨true, 10, true⟩ _).1 rfl rfl,
   ((clientSafeMessage_production ⟨true, 10, true⟩
      ⟨"validation", "INVALID_INPUT", "bad field", 0, Err.nilE, Err.nilE,
        [], "", [], false⟩).2.2.1 rfl (by decide) (by decide)),
   (clientSafeMessage_production ⟨true, 10, false⟩ _).2.2.2 rfl⟩

/-- C2: in production mode `ToClientJSON` retains exactly the stored keys
in the allow-list {user_id, request_id, trace_id, correlation_id} and
drops every other key from the client payload; with production mode off
all stored keys are retained; in both modes the call leaves the error
(and hence its stored metadata) unchanged. -/
theorem toClientJSON_metadata_allowlist (cfg : Config) (e : CustomError) (k : String) :
    (cfg.ProductionMode = true →
        mdLookup (ToClientJSON cfg e).2.metadata k =
          (if isClientSafeKey k then mdLookup (GetAllMetadata e) k else none))
    ∧ (cfg.ProductionMode = false →
        (ToClientJSON cfg e).2.metadata = GetAllMetadata e)
    ∧ (ToClientJSON cfg e).1 = e := by
  refine ⟨fun hp => ?_, fun hp => ?_, ?_⟩
  · simp [ToClientJSON, hp, mdLookup_filter_clientSafe, GetAllMetadata]
  · simp [ToClientJSON, hp, GetAllMetadata]
  · simp [ToClientJSON]

/-- Witness for C2: a production-mode error carrying the keys `user_id`
and `password` keeps the first and drops the second; with production off,
`password` is retained. -/
theorem toClientJSON_metadata_allowlist_witness :
    mdLookup (ToClientJSON ⟨true, 10, true⟩
        ⟨"internal", "INTERNAL_ERROR", "m", 0, Err.nilE, Err.nilE,
          [("user_id", "usr_1"), ("password", "hunter2")], "", [], false⟩
      ).2.metadata "user_id" = some "usr_1"
    ∧ mdLookup (ToClientJSON ⟨true, 10, true⟩
        ⟨"internal", "INTERNAL_ERROR", "m", 0, Err.nilE, Err.nilE,
          [("user_id", "usr_1"), ("password", "hunter2")], "", [], false⟩
      ).2.metadata "password" = none
    ∧ mdLookup (ToClientJSON ⟨true, 10, false⟩
        ⟨"internal", "INTERNAL_ERROR", "m", 0, Err.nilE, Err.nilE,
          [("user_id", "usr_1"), ("password", "hunter2")], "", [], false⟩
      ).2.metadata "password" = some "hunter2" := by
  refine ⟨?_, ?_, ?_⟩
  · have h := (toClientJSON_metadata_allowlist ⟨true, 10, true⟩
      ⟨"internal", "INTERNAL_ERROR", "m", 0, Err.nilE, Err.nilE,
        [("user_id", "usr_1"), ("password", "hunter2")], "", [], false⟩
      "user_id").1 rfl
    simpa using h
  · have h := (toClientJSON_metadata_allowlist ⟨true, 10, true⟩
      ⟨"internal", "INTERNAL_ERROR", "m", 0, Err.nilE, Err.nilE,
        [("user_id", "usr_1"), ("password", "hunter2")], "", [], false⟩
      "password").1 rfl
    simpa using h
  · have h := (toClientJSON_metadata_allowlist ⟨true, 10, false⟩
      ⟨"internal", "INTERNAL_ERROR", "m", 0, Err.nilE, Err.nilE,
        [("user_id", "usr_1"), ("password", "hunter2")], "", [], false⟩
      "password").2.1 rfl
    rw [show (ToClientJSON ⟨true, 10, false⟩
      ⟨"internal", "INTERNAL_ERROR", "m", 0, Err.nilE, Err.nilE,
        [("user_id", "usr_1"), ("password", "hunter2")], "", [], false⟩
      ).2.metadata = _ from h]
    decide

/-- C6: writing the same key twice leaves only the second value visible —
`GetMetadata k` returns `(v2, true)` — the keys of the store stay unique,
and no other key's value changes. -/
theorem withMetadata_last_write_wins (e : CustomError) (k v1 v2 k' : String)
    (hne : k' ≠ k) (hnd : (e.metadata.map Prod.fst).Nodup) :
    GetMetadata (WithMetadata (WithMetadata e k v1) k v2) k = (v2, true)
    ∧ GetMetadata (WithMetadata (WithMetadata e k v1) k v2) k'
        = GetMetadata e k'
    ∧ (((WithMetadata (WithMetadata e k v1) k v2).metadata.map Prod.fst)).Nodup := by
  refine ⟨?_, ?_, ?_⟩
  · simp [GetMetadata, WithMetadata, mdLookup_mdInsert_self]
  · simp [GetMetadata, WithMetadata,
      mdLookup_mdInsert_ne _ _ _ _ hne]
  · exact keys_nodup_mdInsert _ _ _ (keys_nodup_mdInsert _ _ _ hnd)

/-- Witness for C6 at a concrete error and keys. -/
theorem withMetadata_last_write_wins_witness :
    GetMetadata (WithMetadata (WithMetadata
        ⟨"validation", "INVALID_INPUT", "m", 0, Err.nilE, Err.nilE,
          [("other", "o")], "", [], false⟩ "k" "v1") "k" "v2") "k" = ("v2", true)
    ∧ GetMetadata (WithMetadata (WithMetadata
        ⟨"validation", "INVALID_INPUT", "m", 0, Err.nilE, Err.nilE,
          [("other", "o")], "", [], false⟩ "k" "v1") "k" "v2") "other"
        = GetMetadata ⟨"validation", "INVALID_INPUT", "m", 0, Err.nilE,
            Err.nilE, [("other", "o")], "", [], false⟩ "other" :=
  ⟨(withMetadata_last_write_wins
      ⟨"validation", "INVALID_INPUT", "m", 0, Err.nilE, Err.nilE,
        [("other", "o")], "", [], false⟩ "k" "v1" "v2" "other"
      (by decide) (by decide)).1,
   (withMetadata_last_write_wins
      ⟨"validation", "INVALID_INPUT", "m", 0, Err.nilE, Err.nilE,
        [("other", "o")], "", [], false⟩ "k" "v1" "v2" "other"
      (by decide) (by decide)).2.1⟩

/-! ## Stack-capture lemmas -/

theorem captureLoop_length_le (fuel : Nat) :
    ∀ (i : Nat) (host : HostStack), (captureLoop fuel i host).length ≤ fuel := by
  induction fuel with
  | zero => intro i host; simp [captureLoop]
  | succ n ih =>
    intro i host
    rw [captureLoop]
    cases hg : host.get? i with
    | none => simp
    | some o =>
      cases o with
      | none => simp
      | some f =>
        by_cases hc : (strContainsSub f.Function MAIN_FUNCTION_NAME
            || strContainsSub f.Function TESTING_FUNCTION_NAME) = true
        · simp [hc]
        · simp only [Bool.not_eq_true] at hc
          simp only [hc, Bool.false_eq_true, if_false, List.length_cons]
          exact Nat.succ_le_succ (ih (i + 1) host)

/-- C4, counterexample to the claimed `min(configuredMaxDepth, 10)` bound:
with stack capture enabled and max depth configured to 20, a freshly
constructed error on a 13-frame host stack carries 11 frames — more than
`min 20 10 = 10`.  The code caps the walk at the configured depth alone
(substituting 10 only when the configured depth is ≤ 0); it never takes
the minimum with `DEFAULT_STACK_DEPTH`. -/
theorem captureStackTrace_min_bound_counterexample :
    (GetStackTrace (NewCustomErrorWithCategory ⟨true, 20, false⟩ 0
        (List.replicate 13 (some ⟨"f", "x.go", 1⟩))
        "internal" "INTERNAL_ERROR" "m")).length = 11
    ∧ ¬ ((GetStackTrace (NewCustomErrorWithCategory ⟨true, 20, false⟩ 0
        (List.replicate 13 (some ⟨"f", "x.go", 1⟩))
        "internal" "INTERNAL_ERROR" "m")).length ≤ min 20 10) := by
  constructor
  · decide
  · decide

/-- C4 (amended): with stack capture disabled a freshly constructed error
has exactly zero frames regardless of the depth setting; with capture
enabled it has at most the configured max depth when that is > 0, and at
most `DEFAULT_STACK_DEPTH = 10` when the configured depth is ≤ 0. -/
theorem captureStackTrace_depth_bound (cfg : Config) (now : Nat)
    (host : HostStack) (category code message : String) :
    (cfg.EnableStackTrace = false →
        GetStackTrace (NewCustomErrorWithCategory cfg now host category code message) = [])
    ∧ (cfg.EnableStackTrace = true →
        (GetStackTrace (NewCustomErrorWithCategory cfg now host category code message)).length ≤
          (if cfg.MaxStackDepth ≤ 0 then DEFAULT_STACK_DEPTH else cfg.MaxStackDepth).toNat) := by
  constructor
  · intro hd
    simp [GetStackTrace, NewCustomErrorWithCategory, hd]
  · intro he
    simp only [GetStackTrace, NewCustomErrorWithCategory, he, if_true]
    simp only [captureStackTrace, he, Bool.not_true, Bool.false_eq_true, if_false]
    exact captureLoop_length_le _ _ _

/-- Witness for C4 (amended): disabled capture yields zero frames even at
depth 20; enabled capture at configured depth 3 yields at most 3 frames. -/
theorem captureStackTrace_depth_bound_witness :
    GetStackTrace (NewCustomErrorWithCategory ⟨false, 20, false⟩ 0
        (List.replicate 13 (some ⟨"f", "x.go", 1⟩)) "internal" "INTERNAL_ERROR" "m") = []
    ∧ (GetStackTrace (NewCustomErrorWithCategory ⟨true, 3, false⟩ 0
        (List.replicate 13 (some ⟨"f", "x.go", 1⟩)) "internal" "INTERNAL_ERROR" "m")).length ≤
        (if (3 : Int) ≤ 0 then DEFAULT_STACK_DEPTH else 3).toNat :=
  ⟨(captureStackTrace_depth_bound ⟨false, 20, false⟩ 0
      (List.replicate 13 (some ⟨"f", "x.go", 1⟩)) "internal" "INTERNAL_ERROR" "m").1 rfl,
   (captureStackTrace_depth_bound ⟨true, 3, false⟩ 0
      (List.replicate 13 (some ⟨"f", "x.go", 1⟩)) "internal" "INTERNAL_ERROR" "m").2 rfl⟩

/-- C5: `GetAllMetadata` hands out a fresh map reference distinct from the
internal one; a caller mutating the returned map changes neither a
subsequent `GetMetadata` nor the contents returned by a subsequent
`GetAllMetadata`. -/
theorem getAllMetadata_defensive_copy (h : Heap) (e : ErrRef)
    (k v k' : String) (hwf : e.mdRef < h.next) :
    (getAllMetadataH h e).2 ≠ e.mdRef
    ∧ getMetadataH
        (heapMapAssign (getAllMetadataH h e).1 (getAllMetadataH h e).2 k v)
        e k' = getMetadataH h e k'
    ∧ (getAllMetadataH
          (heapMapAssign (getAllMetadataH h e).1 (getAllMetadataH h e).2 k v)
          e).1.mem
        (getAllMetadataH
          (heapMapAssign (getAllMetadataH h e).1 (getAllMetadataH h e).2 k v)
          e).2
      = h.mem e.mdRef := by
  have hne : e.mdRef ≠ h.next := Nat.ne_of_lt hwf
  refine ⟨fun hc => hne hc.symm, ?_, ?_⟩
  · simp [getAllMetadataH, getMetadataH, heapMapAssign, hne]
  · simp [getAllMetadataH, heapMapAssign, hne, Nat.ne_of_lt (Nat.lt_succ_of_lt hwf)]

/-- Witness for C5 on a one-map heap: after mutating the copy, the
original still reads `some "v"` at `"k"` and `none` at the new key. -/
theorem getAllMetadata_defensive_copy_witness :
    (getAllMetadataH ⟨fun a => if a = 0 then [("k", "v")] else [], 1⟩ ⟨0⟩).2 ≠ 0
    ∧ getMetadataH
        (heapMapAssign
          (getAllMetadataH ⟨fun a => if a = 0 then [("k", "v")] else [], 1⟩ ⟨0⟩).1
          (getAllMetadataH ⟨fun a => if a = 0 then [("k", "v")] else [], 1⟩ ⟨0⟩).2
          "k" "evil")
        ⟨0⟩ "k" = getMetadataH ⟨fun a => if a = 0 then [("k", "v")] else [], 1⟩ ⟨0⟩ "k" :=
  ⟨(getAllMetadata_defensive_copy
      ⟨fun a => if a = 0 then [("k", "v")] else [], 1⟩ ⟨0⟩ "k" "evil" "k"
      (by decide)).1,
   (getAllMetadata_defensive_copy
      ⟨fun a => if a = 0 then [("k", "v")] else [], 1⟩ ⟨0⟩ "k" "evil" "k"
      (by decide)).2.1⟩

/-- C7: chain matching — `errors.Is` on a CustomError succeeds when the
target matches its sentinel or its wrapped error's own chain; on a 3-level
wrapped chain of CustomErrors with sentinels `i1, i2, i3` it succeeds
against every sentinel and every wrapped error of the chain, and fails
against an unrelated sentinel `j`. -/
theorem errsIs_chain_matching (i1 i2 i3 j : Nat) (s w t : Err)
    (h1 : j ≠ i1) (h2 : j ≠ i2) (h3 : j ≠ i3) :
    (errsIs s t = true ∨ errsIs w t = true →
        errsIs (Err.customE s w) t = true)
    ∧ errsIs (Err.customE (Err.sentinelE i1) (Err.customE (Err.sentinelE i2)
        (Err.customE (Err.sentinelE i3) Err.nilE))) (Err.sentinelE i1) = true
    ∧ errsIs (Err.customE (Err.sentinelE i1) (Err.customE (Err.sentinelE i2)
        (Err.customE (Err.sentinelE i3) Err.nilE))) (Err.sentinelE i2) = true
    ∧ errsIs (Err.customE (Err.sentinelE i1) (Err.customE (Err.sentinelE i2)
        (Err.customE (Err.sentinelE i3) Err.nilE))) (Err.sentinelE i3) = true
    ∧ errsIs (Err.customE (Err.sentinelE i1) (Err.customE (Err.sentinelE i2)
        (Err.customE (Err.sentinelE i3) Err.nilE)))
        (Err.customE (Err.sentinelE i2) (Err.customE (Err.sentinelE i3) Err.nilE)) = true
    ∧ errsIs (Err.customE (Err.sentinelE i1) (Err.customE (Err.sentinelE i2)
        (Err.customE (Err.sentinelE i3) Err.nilE)))
        (Err.customE (Err.sentinelE i3) Err.nilE) = true
    ∧ errsIs (Err.customE (Err.sentinelE i1) (Err.customE (Err.sentinelE i2)
        (Err.customE (Err.sentinelE i3) Err.nilE))) (Err.sentinelE j) = false := by
  refine ⟨fun hst => ?_, ?_, ?_, ?_, ?_, ?_, ?_⟩
  · rcases hst with hst | hst <;> simp [errsIs, hst]
  · simp [errsIs]
  · simp [errsIs]
  · simp [errsIs]
  · simp [errsIs]
  · simp [errsIs]
  · simp [errsIs, Ne.symm h1, Ne.symm h2, Ne.symm h3]

/-- Witness for C7 on the concrete 3-level chain with sentinels 1, 2, 3
and the unrelated sentinel 4. -/
theorem errsIs_chain_matching_witness :
    errsIs (Err.customE (Err.sentinelE 1) (Err.customE (Err.sentinelE 2)
        (Err.customE (Err.sentinelE 3) Err.nilE))) (Err.sentinelE 1) = true
    ∧ errsIs (Err.customE (Err.sentinelE 1) (Err.customE (Err.sentinelE 2)
        (Err.customE (Err.sentinelE 3) Err.nilE))) (Err.sentinelE 4) = false :=
  ⟨(errsIs_chain_matching 1 2 3 4 Err.nilE Err.nilE Err.nilE
      (by decide) (by decide) (by decide)).2.1,
   (errsIs_chain_matching 1 2 3 4 Err.nilE Err.nilE Err.nilE
      (by decide) (by decide) (by decide)).2.2.2.2.2.2⟩

/-- C8, counterexample: `ShortError` embeds the raw category, code and
message, so it can contain an added metadata key as a substring — here the
key `"a"`, added via `WithMetadata`, occurs inside the category string
`"validation"` — refuting "never contains any added metadata key
substring". -/
theorem shortError_metadata_substring_counterexample :
    strContainsSub
      (ShortError (WithMetadata
        ⟨"validation", "INVALID_INPUT", "m", 0, Err.nilE, Err.nilE,
          [], "", [], false⟩ "a" "1"))
      "a" = true := by decide

/-- C8 (amended): `ShortError` is the single line
`"[{rid}] {cat} ({code}): {msg}"` when a request id is set and
`"{cat} ({code}): {msg}"` otherwise; its value is independent of any
metadata added via `WithMetadata`; and it contains no newline provided the
request id, category, code and message themselves contain none. -/
theorem shortError_shape (e : CustomError) (k v : String)
    (hrid : '\n' ∉ e.RequestID.data) (hcat : '\n' ∉ e.Category.data)
    (hcode : '\n' ∉ e.Code.data) (hmsg : '\n' ∉ e.Message.data) :
    (e.RequestID ≠ "" → ShortError e =
        "[" ++ e.RequestID ++ "] " ++ e.Category ++ " (" ++ e.Code ++ "): " ++ e.Message)
    ∧ (e.RequestID = "" → ShortError e =
        e.Category ++ " (" ++ e.Code ++ "): " ++ e.Message)
    ∧ ShortError (WithMetadata e k v) = ShortError e
    ∧ '\n' ∉ (ShortError e).data := by
  refine ⟨fun h => by simp [ShortError, h], fun h => by simp [ShortError, h],
    by simp [ShortError, WithMetadata], ?_⟩
  by_cases h : e.RequestID = "" <;>
    simp [ShortError, h, String.data_append, List.mem_append, hrid, hcat,
      hcode, hmsg]

/-- Witness for C8 (amended) on a concrete validation error without a
request id. -/
theorem shortError_shape_witness :
    ShortError ⟨"validation", "INVALID_INPUT", "m", 0, Err.nilE, Err.nilE,
        [], "", [], false⟩ =
      CustomError.Category ⟨"validation", "INVALID_INPUT", "m", 0, Err.nilE,
          Err.nilE, [], "", [], false⟩ ++ " (" ++
        CustomError.Code ⟨"validation", "INVALID_INPUT", "m", 0, Err.nilE,
          Err.nilE, [], "", [], false⟩ ++ "): " ++
        CustomError.Message ⟨"validation", "INVALID_INPUT", "m", 0, Err.nilE,
          Err.nilE, [], "", [], false⟩
    ∧ ShortError (WithMetadata ⟨"validation", "INVALID_INPUT", "m", 0,
        Err.nilE, Err.nilE, [], "", [], false⟩ "a" "1") =
      ShortError ⟨"validation", "INVALID_INPUT", "m", 0, Err.nilE, Err.nilE,
        [], "", [], false⟩
    ∧ '\n' ∉ (ShortError ⟨"validation", "INVALID_INPUT", "m", 0, Err.nilE,
        Err.nilE, [], "", [], false⟩).data := by
  have h := shortError_shape
    ⟨"validation", "INVALID_INPUT", "m", 0, Err.nilE, Err.nilE, [], "", [], false⟩
    "a" "1" (by decide) (by decide) (by decide) (by decide)
  exact ⟨h.2.1 rfl, h.2.2.1, h.2.2.2⟩

/-- C9, counterexample: `WithRequestID` writes the request-id field with
no lock acquisition at all — its access trace is not lock-protected —
refuting "every mutable field … and the request id … is protected by that
instance's one read/write lock". -/
theorem withRequestID_unlocked_counterexample :
    lockProtected withRequestIDTrace = false := by decide

/-- C9 (amended): every metadata-store and stack-trace access of the
per-instance operations happens while holding the instance lock (shared
for reads, exclusive for writes) — so those operations are serialized
pairwise — but `WithRequestID` writes the request id without acquiring the
lock. -/
theorem instanceLock_discipline :
    lockProtected withMetadataTrace = true
    ∧ lockProtected getMetadataTrace = true
    ∧ lockProtected getAllMetadataTrace = true
    ∧ lockProtected getStackTraceTrace = true
    ∧ lockProtected withStackTraceTrace = true
    ∧ lockProtected clearStackTraceTrace = true
    ∧ lockProtected filterStackTraceTrace = true
    ∧ lockProtected withRequestIDTrace = false := by decide

/-- C10: `WrapWithCustomError` returns nil (none) on a nil input error,
constructing nothing; on a non-nil input it returns a CustomError whose
`Wrapped` is exactly the input and whose category, code and message are
the given arguments. -/
theorem wrapWithCustomError_nil_and_fields (cfg : Config) (now : Nat)
    (host : HostStack) (err : Err) (category code message : String)
    (h : err ≠ Err.nilE) :
    WrapWithCustomError cfg now host Err.nilE category code message = none
    ∧ ∃ c, WrapWithCustomError cfg now host err category code message = some c
        ∧ c.Wrapped = err ∧ c.Category = category ∧ c.Code = code
        ∧ c.Message = message := by
  refine ⟨by simp [WrapWithCustomError], ?_⟩
  refine ⟨{ NewCustomErrorWithCategory cfg now host category code message with
      Wrapped := err }, ?_, rfl, rfl, rfl, rfl⟩
  simp [WrapWithCustomError, h]

/-- Witness for C10 wrapping the concrete sentinel error 7. -/
theorem wrapWithCustomError_nil_and_fields_witness :
    WrapWithCustomError ⟨false, 10, false⟩ 0 [] Err.nilE
        "internal" "INTERNAL_ERROR" "m" = none
    ∧ ∃ c, WrapWithCustomError ⟨false, 10, false⟩ 0 [] (Err.sentinelE 7)
          "internal" "INTERNAL_ERROR" "m" = some c
        ∧ c.Wrapped = Err.sentinelE 7 ∧ c.Category = "internal"
        ∧ c.Code = "INTERNAL_ERROR" ∧ c.Message = "m" :=
  wrapWithCustomError_nil_and_fields ⟨false, 10, false⟩ 0 [] (Err.sentinelE 7)
    "internal" "INTERNAL_ERROR" "m" (by decide)

end Cuserr


